import Mathlib

/-!
Verification development for the eulexistdb lazy query-set engine
(`eulexistdb/query.py`).  The Python classes `Xquery` and `QuerySet` are
shallowly embedded as Lean structures; their methods become pure functions
(stateful methods return the updated record, fallible methods return
`Except`).  Python reference semantics for the mutable containers held by
an `Xquery` object are modelled, where a claim depends on them, by a small
store of list cells indexed by natural numbers.
-/

namespace Eulexistdb

/-! ### Python `str.replace`, modelled on lists of characters

`escape_string` in the source is `s.replace('"', '""').replace('&', '&amp;')`.
Python's `str.replace` scans left to right, replaces non-overlapping
occurrences and never rescans its own output; `replaceL` is that operation
on lists of characters.  (Python's behaviour for an empty pattern——inserting
the replacement between characters——is not modelled; the guard makes the
empty pattern a no-op.  The source only ever uses non-empty patterns.) -/

def replaceL (pat rep : List Char) : List Char → List Char
  | [] => []
  | c :: rest =>
    if h : pat ≠ [] ∧ pat.isPrefixOf (c :: rest) then
      rep ++ replaceL pat rep ((c :: rest).drop pat.length)
    else
      c :: replaceL pat rep rest
termination_by l => l.length
decreasing_by
  · simp only [List.length_drop]
    have hp : 0 < pat.length := List.length_pos.mpr h.1
    simp only [List.length_cons]
    omega
  · simp

/-- The replacement text for `'&'`: the five characters of `&amp;`. -/
def ampRep : List Char := ['&', 'a', 'm', 'p', ';']

/-- Source `escape_string`: `s.replace('"', '""').replace('&', '&amp;')`,
with `str.replace` modelled by `replaceL`. -/
def escape_string (s : String) : String :=
  ⟨replaceL ['&'] ampRep (replaceL ['"'] ['"', '"'] s.data)⟩

/-- Source `_quote_as_string_literal`: `'"' + escape_string(s) + '"'`. -/
def _quote_as_string_literal (s : String) : String :=
  "\"" ++ escape_string s ++ "\""

/-! ### Minimal model of the external XPath parser/serializer

Modelled from the spec: `eulxml.xpath.parse` / `serialize` are an external
library dependency (spec §1 treats them as an opaque "parse string into
AST" / "serialize AST into string" capability; the library is not under
`src/`).  Only the shapes the verified claims exercise are modelled:
absolute paths (`/x`, `//x`) and plain relative steps.  Unions and function
calls, which the source handles in `prep_xpath`, are never reached by any
theorem below. -/

inductive XPathAst where
  | step (nodeTest : String)
  | absolutePath (double : Bool) (rel : XPathAst)
deriving Repr, DecidableEq

def xpathParse (s : String) : XPathAst :=
  if s.startsWith "//" then .absolutePath true (.step (s.drop 2))
  else if s.startsWith "/" then .absolutePath false (.step (s.drop 1))
  else .step s

def xpathSerialize : XPathAst → String
  | .step s => s
  | .absolutePath dbl r => (if dbl then "//" else "/") ++ xpathSerialize r

/-! ### The `Xquery` accumulator state (source class `Xquery`)

Python dictionaries (`return_fields`, `additional_return_fields`,
`fulltext_options`, `namespaces`) are modelled as association lists; Python
2 dictionaries are unordered, so any ordering of the entries is a faithful
model.  `start`/`end` are naturals (the pagination window; the source only
ever feeds them non-negative values through `set_limits`). -/

structure Xquery where
  xpath : String
  collection : Option String
  namespaces : Option (List (String × String))
  filters : List String
  or_filters : List String
  where_filters : List String
  where_fields : List String
  order_by : Option String
  order_mode : Option String
  return_fields : List (String × String)
  additional_return_fields : List (String × String)
  raw_fields : List String
  start : Nat
  end_ : Option Nat
  _distinct : Bool
  return_xpaths : List String
  _return_field_count : Nat
  fulltext_options : List (String × String)
  ft_query : Bool
  highlight : Option String
deriving Repr, DecidableEq

namespace Xquery

/-- Source class attribute `Xquery.available_filters`. -/
def available_filters : List String :=
  ["contains", "startswith", "exact", "fulltext_terms", "highlight", "in"]

/-- Source class attribute `Xquery.special_fields`. -/
def special_fields : List String :=
  ["fulltext_score", "last_modified", "hash", "document_name",
   "collection_name", "match_count"]

/-- Source class attribute `Xquery._raw_prefix` (`'r_'`), the field-name
marker that distinguishes raw field returns. -/
def raw_marker : String := "r_"

/-- Python `collection.lstrip('/')` strips every leading slash. -/
def lstripSlash (s : String) : String := s.dropWhile (· == '/')

/-- Source `Xquery.set_collection`. -/
def set_collection (q : Xquery) (collection : Option String) : Xquery :=
  { q with collection := collection.map lstripSlash }

/-- Source `Xquery.__init__`.  The class-level default `xpath = '/node()'`
applies when no xpath is given. -/
def init (xpath : Option String) (collection : Option String)
    (namespaces : Option (List (String × String)))
    (fulltext_options : List (String × String)) : Xquery :=
  set_collection
    { xpath := xpath.getD "/node()", collection := none,
      namespaces := namespaces, filters := [], or_filters := [],
      where_filters := [], where_fields := [], order_by := none,
      order_mode := none, return_fields := [], additional_return_fields := [],
      raw_fields := [], start := 0, end_ := none, _distinct := false,
      return_xpaths := [], _return_field_count := 1,
      fulltext_options := fulltext_options, ft_query := false,
      highlight := none }
    collection

/-- The default `Xquery()` state (all constructor arguments at their
defaults). -/
def default : Xquery := init none none none []

/-- Source `Xquery.getCopy`, as a pure record copy.  The original creates a
fresh `Xquery(xpath, collection, namespaces)` (so `start`/`end` and
`fulltext_options` revert to constructor defaults, the latter then being
overwritten with a copy) and transfers every other attribute; the contents
transferred are exactly those of `self`, so the pure copy is the record with
`start`/`end_` reset.  Which containers are *aliased* rather than copied is
invisible at this level; the store-based model below (`XqueryRef`) captures
it for claim C1. -/
def getCopy (q : Xquery) : Xquery :=
  { q with start := 0, end_ := none }

/-- Source `Xquery.sort`. -/
def sort (q : Xquery) (field : String) (ascending : Bool)
    (case_insensitive : Bool) : Xquery :=
  let field := if case_insensitive then "fn:lower-case(" ++ field ++ ")" else field
  { q with order_by := some field,
           order_mode := some (if ascending then "ascending" else "descending") }

/-- Source `Xquery.distinct`. -/
def distinct (q : Xquery) : Xquery := { q with _distinct := true }

/-- Source `Xquery.clear_filters`: resets only `self.filters` (the AND
list); `or_filters` and `where_filters` are untouched. -/
def clear_filters (q : Xquery) : Xquery := { q with filters := [] }

/-- Source `Xquery.set_limits`.  `self.start or 0` is just `self.start`
for a natural number. -/
def set_limits (q : Xquery) (low high : Option Nat) : Xquery :=
  let q :=
    match high with
    | some h =>
      match q.end_ with
      | some e => { q with end_ := some (min e (q.start + h)) }
      | none => { q with end_ := some (q.start + h) }
    | none => q
  match low with
  | some l =>
    match q.end_ with
    | some e => { q with start := min e (q.start + l) }
    | none => { q with start := q.start + l }
  | none => q

/-- Source `Xquery.clear_limits`. -/
def clear_limits (q : Xquery) : Xquery := { q with start := 0, end_ := none }

/-- Python `dict.update` on the association-list model: entries whose key is
overridden are replaced, new entries appended (Python 2 dictionaries carry
no meaningful order). -/
def dictUpdate (old new : List (String × String)) : List (String × String) :=
  old.filter (fun p => ¬ new.any (fun n => n.1 == p.1)) ++ new

/-- Source `Xquery.return_only`. -/
def return_only (q : Xquery) (fields : List (String × String)) (raw : Bool) :
    Xquery :=
  let q := { q with return_fields := dictUpdate q.return_fields fields }
  if raw then { q with raw_fields := q.raw_fields ++ fields.map (·.1) } else q

/-- Source `Xquery.return_also`. -/
def return_also (q : Xquery) (fields : List (String × String)) (raw : Bool) :
    Xquery :=
  let q := { q with additional_return_fields :=
               dictUpdate q.additional_return_fields fields }
  if raw then { q with raw_fields := q.raw_fields ++ fields.map (·.1) } else q

end Xquery

/-- A Python value as passed for a filter: the source hands `add_filter`
strings, booleans (for `highlight`) and lists of strings (for `in`). -/
inductive PyVal where
  | s (v : String)
  | b (v : Bool)
  | vlist (l : List String)
deriving Repr, DecidableEq

def PyVal.isBool : PyVal → Bool
  | .b _ => true
  | _ => false

/-- Errors raised by `Xquery.add_filter`: `typeError` is the explicit
`raise TypeError(...)` for an unsupported filter type; `valueError` models
the `AttributeError`/`TypeError` Python would raise when a filter value of
the wrong runtime type reaches string formatting. -/
inductive AddFilterError where
  | typeError (msg : String)
  | valueError (msg : String)
deriving Repr, DecidableEq

namespace Xquery

/-- Source `Xquery.add_filter`.  Returns the updated state or the error
raised; an error leaves the caller's state untouched (the Python method
raises before mutating anything: the `TypeError` check is its first
statement). -/
def add_filter (q : Xquery) (xpath type_ : String) (value : PyVal)
    (mode : Option String) : Except AddFilterError Xquery :=
  if ¬ available_filters.contains type_ then
    .error (.typeError ("'" ++ type_ ++ "' is not a supported filter type"))
  else
    let isSpecial := special_fields.contains xpath
    -- special fields: record in where_fields, reference the xq variable
    let q := if isSpecial then { q with where_fields := q.where_fields ++ [xpath] } else q
    let _xpath := if isSpecial then "$" ++ xpath else xpath
    -- `ft:query` template depends on whether fulltext options are configured
    let ftQuery := fun (a b : String) =>
      if q.fulltext_options ≠ [] then "ft:query(" ++ a ++ ", " ++ b ++ ", $ft_options)"
      else "ft:query(" ++ a ++ ", " ++ b ++ ")"
    -- per-type filter expression and state updates (exactly one branch of
    -- the source's `if type == ...` chain applies)
    let res : Except AddFilterError (Option String × Xquery) :=
      if type_ = "contains" then
        match value with
        | .s v => .ok (some ("contains(" ++ _xpath ++ ", " ++ _quote_as_string_literal v ++ ")"), q)
        | _ => .error (.valueError "contains expects a string value")
      else if type_ = "startswith" then
        match value with
        | .s v => .ok (some ("starts-with(" ++ _xpath ++ ", " ++ _quote_as_string_literal v ++ ")"), q)
        | _ => .error (.valueError "startswith expects a string value")
      else if type_ = "exact" then
        match value with
        | .s v => .ok (some (_xpath ++ " = " ++ _quote_as_string_literal v), q)
        | _ => .error (.valueError "exact expects a string value")
      else if type_ = "fulltext_terms" then
        match value with
        | .s v => .ok (some (ftQuery _xpath (_quote_as_string_literal v)),
                       { q with ft_query := true })
        | _ => .error (.valueError "fulltext_terms expects a string value")
      else if type_ = "highlight" then
        -- stored for `getQuery`; no filter expression.  (The source also
        -- logs a warning when `xpath != '.'`; logging is not modelled.)
        match value with
        | .s v => .ok (none, { q with highlight := some v, ft_query := true })
        | _ => .error (.valueError "highlight filter expects a string value")
      else
        -- type_ = "in" (the last member of available_filters)
        match value with
        | .vlist l =>
          .ok (some ("contains((" ++
                String.intercalate "," (l.map _quote_as_string_literal) ++
                "), " ++ _xpath ++ ")"), q)
        | _ => .error (.valueError "in expects a list value")
    match res with
    | .error e => .error e
    | .ok (none, q) => .ok q
    | .ok (some f, q) =>
      if isSpecial then .ok { q with where_filters := q.where_filters ++ [f] }
      else if mode = some "OR" then .ok { q with or_filters := q.or_filters ++ [f] }
      else .ok { q with filters := q.filters ++ [f] }

/-- Source `Xquery.prep_xpath` (string result, default `return_field`
behaviour): bind an xpath to the given context.  Union and function-call
shapes of the full source are not modelled (see `XPathAst`); everything the
claims exercise is an absolute or relative path. -/
def prep_xpath (xpath context : String) : String :=
  match xpathParse xpath with
  | .absolutePath dbl r => context ++ xpathSerialize (.absolutePath dbl r)
  | .step s => context ++ "/" ++ s

/-- Source `Xquery._return_name_from_xpath`. -/
def _return_name_from_xpath : XPathAst → String
  | .step s => s
  | .absolutePath _ r => _return_name_from_xpath r

/-- Does a state reference the special field `f` anywhere (sort key, return
field, additional return field, or a filter routed through
`where_fields`)?  This is the membership test of the `let`-emission loop in
`Xquery.getQuery`. -/
def references_special (q : Xquery) (f : String) : Bool :=
  q.order_by == some f || q.return_fields.any (fun p => p.1 == f) ||
    q.additional_return_fields.any (fun p => p.1 == f) ||
    q.where_fields.contains f

/-- The value expression bound for each special field (the `elif` chain in
`Xquery.getQuery`; the source's duplicate `document_name` arm is dead
code).  The catch-all is unreachable: the caller only passes members of
`special_fields`. -/
def specialFieldVal : String → String
  | "fulltext_score" => "ft:score($n)"
  | "hash" => "util:hash($n, \"SHA-1\")"
  | "document_name" => "util:document-name($n)"
  | "collection_name" => "util:collection-name($n)"
  | "last_modified" =>
      "xmldb:last-modified(util:collection-name($n), util:document-name($n))"
  | "match_count" => "count(util:expand($n)//exist:match)"
  | _ => ""

/-- The special fields that receive a `let $field := ...` binding in the
compiled FLOWR query: the source iterates over `special_fields` once and
emits a binding for each referenced one. -/
def letBindingFields (q : Xquery) : List String :=
  special_fields.filter (references_special q)

/-- Python `'%s' % v` for an optional value (`None` prints as `"None"`). -/
def pyStr (v : Option String) : String := v.getD "None"

/-- Python truthiness of an optional string (`None` and `''` are falsy). -/
def pyTruthy : Option String → Bool
  | none => false
  | some s => s ≠ ""

/-- Python `%`-formatting of a raw field xpath: substitutes `%(xq_var)s` and
unescapes `%%`.  (Python does both in a single left-to-right pass; the two
sequential replaces agree on every xpath the source documents, and no
theorem below evaluates this.) -/
def substXqVar (xp : String) : String :=
  ⟨replaceL ("%%".data) ("%".data)
      (replaceL ("%(xq_var)s".data) ("$n".data) xp.data)⟩

/-- Python `dict(self.return_fields, **self.additional_return_fields)`. -/
def mergedReturnFields (q : Xquery) : List (String × String) :=
  q.return_fields.filter
      (fun p => ¬ q.additional_return_fields.any (fun n => n.1 == p.1)) ++
    q.additional_return_fields

/-- Source `Xquery._constructReturn` (the string it returns; its resetting
of `return_xpaths`/`_return_field_count`, consumed only by
`get_return_xpaths`, is not needed by any claim below). -/
def _constructReturn (q : Xquery) : String :=
  if q.return_fields ≠ [] ∨ q.additional_return_fields ≠ [] then
    let return_el := _return_name_from_xpath (xpathParse q.xpath)
    let rblocks : List String :=
      if q.return_fields ≠ [] then [] else ["\x7b$n\x7d"]
    let rblocks := rblocks ++ (mergedReturnFields q).map (fun p =>
      if special_fields.contains p.1 then
        "<" ++ p.1 ++ ">\x7b$" ++ p.1 ++ "\x7d</" ++ p.1 ++ ">"
      else if q.raw_fields.contains p.1 then
        "<" ++ raw_marker ++ p.1 ++ ">\x7b" ++ substXqVar p.2 ++ "\x7d</" ++
          raw_marker ++ p.1 ++ ">"
      else
        "<field>\x7b" ++ prep_xpath p.2 "$n" ++ "\x7d</field>")
    "return <" ++ return_el ++ ">\n " ++ String.intercalate "\n " rblocks ++
      "\n</" ++ return_el ++ ">"
  else
    "return $n"

/-- Source `Xquery.getQuery`: compile the accumulated state into an XQuery
string (plain XPath fast path, or a FLOWR query when sorting, constructed
returns, where-filters, or configured fulltext options require one). -/
def getQuery (q : Xquery) : String :=
  let declarations : Option String :=
    match q.namespaces with
    | some ns =>
      if ns ≠ [] then
        some (String.intercalate "\n" (ns.map (fun p =>
          "declare namespace " ++ p.1 ++ "='" ++ p.2 ++ "';")))
      else none
    | none => none
  let xpath_parts : List String :=
    (match q.collection with
     | some c => [prep_xpath q.xpath ("collection(\"/db/" ++ c ++ "\")")]
     | none => [q.xpath]) ++
    q.filters.map (fun f => "[" ++ f ++ "]") ++
    (if q.or_filters ≠ [] then
      ["[" ++ String.intercalate " or " q.or_filters ++ "]"] else [])
  let xpath := String.join xpath_parts
  let xpath :=
    match q.highlight with
    | some h =>
      "(" ++ xpath ++ "[ft:query(., " ++ _quote_as_string_literal h ++ ")]|" ++
        xpath ++ ")"
    | none => xpath
  let query :=
    if pyTruthy q.order_by ∨
        q.return_fields ≠ [] ∨ q.additional_return_fields ≠ [] ∨
        q.where_filters ≠ [] ∨ (q.ft_query ∧ q.fulltext_options ≠ []) then
      let flowr_pre :=
        if q.ft_query ∧ q.fulltext_options ≠ [] then
          "let $ft_options := <options>" ++
            String.join (q.fulltext_options.map (fun p =>
              "<" ++ p.1 ++ ">" ++ p.2 ++ "</" ++ p.1 ++ ">")) ++
            "</options>"
        else ""
      let flowr_for := "for $n in " ++ xpath
      let flowr_let := String.intercalate "\n" ((letBindingFields q).map
        (fun f => "let $" ++ f ++ " := " ++ specialFieldVal f))
      let flowr_where := String.intercalate "\n"
        (q.where_filters.map (fun f => "where " ++ f))
      let flowr_order :=
        if pyTruthy q.order_by then
          let ob := (q.order_by).getD ""
          "order by " ++
            (if special_fields.contains ob then "$" ++ ob
             else prep_xpath ob "$n") ++ " " ++ pyStr q.order_mode
        else ""
      let flowr_return := _constructReturn q
      String.intercalate "\n"
        ([flowr_pre, flowr_for, flowr_let, flowr_where, flowr_order,
          flowr_return].filter (· ≠ ""))
    else xpath
  let query := if q._distinct then "distinct-values(" ++ query ++ ")" else query
  let query :=
    match declarations with
    | some d => d ++ "\n" ++ query
    | none => query
  if q.start ≠ 0 ∨ q.end_.isSome then
    "subsequence(" ++ query ++ ", " ++ toString (q.start + 1) ++ ", " ++
      (match q.end_ with
       | none => ""
       | some e => toString (e - q.start)) ++ ")"
  else query

end Xquery

/-! ### Reference/store model of an `Xquery` object (for claim C1)

Python assigns containers by reference, so `Xquery.getCopy` decides, per
container, between a fresh copy and an alias.  `XqueryRef` holds each
mutable container as an index into a store; `derefXq` reads the stores back
into the pure record, and the compiled query of the object is the compiled
query of the dereferenced record. -/

/-- A store of list-of-string cells (the filter/field lists). -/
abbrev StrStore := List (List String)

/-- A store of dictionary cells (the field maps). -/
abbrev PairStore := List (List (String × String))

structure XqueryRef where
  xpath : String
  collection : Option String
  namespaces : Option (List (String × String))
  filtersId : Nat
  orFiltersId : Nat
  whereFiltersId : Nat
  whereFieldsId : Nat
  rawFieldsId : Nat
  returnXpathsId : Nat
  returnFieldsId : Nat
  additionalReturnFieldsId : Nat
  fulltextOptionsId : Nat
  order_by : Option String
  order_mode : Option String
  start : Nat
  end_ : Option Nat
  _distinct : Bool
  _return_field_count : Nat
  ft_query : Bool
  highlight : Option String
deriving Repr, DecidableEq

/-- Read an object's containers out of the stores, yielding the pure
state. -/
def derefXq (s1 : StrStore) (s2 : PairStore) (r : XqueryRef) : Xquery :=
  { xpath := r.xpath, collection := r.collection, namespaces := r.namespaces,
    filters := s1.getD r.filtersId [],
    or_filters := s1.getD r.orFiltersId [],
    where_filters := s1.getD r.whereFiltersId [],
    where_fields := s1.getD r.whereFieldsId [],
    raw_fields := s1.getD r.rawFieldsId [],
    return_xpaths := s1.getD r.returnXpathsId [],
    return_fields := s2.getD r.returnFieldsId [],
    additional_return_fields := s2.getD r.additionalReturnFieldsId [],
    fulltext_options := s2.getD r.fulltextOptionsId [],
    order_by := r.order_by, order_mode := r.order_mode, start := r.start,
    end_ := r.end_, _distinct := r._distinct,
    _return_field_count := r._return_field_count, ft_query := r.ft_query,
    highlight := r.highlight }

/-- The compiled query of a store-resident object. -/
def getQueryRef (s1 : StrStore) (s2 : PairStore) (r : XqueryRef) : String :=
  (derefXq s1 s2 r).getQuery

/-- Mutate a list cell in place: `store[i].append(v)`. -/
def appendStr (s : StrStore) (i : Nat) (v : String) : StrStore :=
  s.set i (s.getD i [] ++ [v])

/-- Mutate a dictionary cell in place: `store[i][k] = v` (as an appended
entry; only freshness of the cell matters to the claims). -/
def appendPair (s : PairStore) (i : Nat) (kv : String × String) : PairStore :=
  s.set i (s.getD i [] ++ [kv])

/-- Source `Xquery.getCopy` under reference semantics.  The constructor
call `Xquery(xpath=..., collection=..., namespaces=...)` allocates fresh
empty cells for every container; the subsequent assignments then

  * extend the fresh `filters`/`where_filters`/`or_filters` cells in place
    (`+=`), so the copy gets *fresh cells holding the same contents*;
  * rebind `return_fields`/`additional_return_fields`/`fulltext_options` to
    `.copy()` results — again fresh cells with the same contents (the
    constructor's cells become garbage and are not modelled);
  * rebind `where_fields`, `raw_fields` and `return_xpaths` to the
    *original's cells* — these three containers are aliased.

`start`/`end` are not transferred, so they keep constructor defaults. -/
def getCopyRef (s1 : StrStore) (s2 : PairStore) (r : XqueryRef) :
    StrStore × PairStore × XqueryRef :=
  let n1 := s1.length
  let n2 := s2.length
  (s1 ++ [s1.getD r.filtersId [], s1.getD r.whereFiltersId [],
          s1.getD r.orFiltersId []],
   s2 ++ [s2.getD r.returnFieldsId [], s2.getD r.additionalReturnFieldsId [],
          s2.getD r.fulltextOptionsId []],
   { r with filtersId := n1, whereFiltersId := n1 + 1, orFiltersId := n1 + 2,
            returnFieldsId := n2, additionalReturnFieldsId := n2 + 1,
            fulltextOptionsId := n2 + 2,
            start := 0, end_ := none })

/-- Well-formedness of a store-resident object: every container index is a
live cell, and the copied list containers do not share a cell with the
aliased ones (true of every object the constructor builds, which allocates
distinct cells for all of them). -/
def XqueryRef.wfIds (s1 : StrStore) (s2 : PairStore) (r : XqueryRef) : Prop :=
  r.filtersId < s1.length ∧ r.orFiltersId < s1.length ∧
  r.whereFiltersId < s1.length ∧ r.whereFieldsId < s1.length ∧
  r.rawFieldsId < s1.length ∧ r.returnXpathsId < s1.length ∧
  r.returnFieldsId < s2.length ∧ r.additionalReturnFieldsId < s2.length ∧
  r.fulltextOptionsId < s2.length ∧
  r.filtersId ≠ r.whereFieldsId ∧ r.filtersId ≠ r.rawFieldsId ∧
  r.filtersId ≠ r.returnXpathsId ∧
  r.orFiltersId ≠ r.whereFieldsId ∧ r.orFiltersId ≠ r.rawFieldsId ∧
  r.orFiltersId ≠ r.returnXpathsId ∧
  r.whereFiltersId ≠ r.whereFieldsId ∧ r.whereFiltersId ≠ r.rawFieldsId ∧
  r.whereFiltersId ≠ r.returnXpathsId

/-! ### The model class and `__`-separated field definitions

`_split_fielddef` walks a `foo__bar__baz` definition through the model's
field declarations (an external `eulxml` XmlObject; modelled as a
name-to-(xpath, optional node class) map, which is all the source reads
from it). -/

/-- A model type: field name to (xpath, node_class).  `node_class` is
`some` for NodeField/NodeListField-like fields. -/
inductive Model where
  | mk : List (String × String × Option Model) → Model

def Model.fields : Model → List (String × String × Option Model)
  | .mk fs => fs

/-- Split a character list on each (leftmost, non-overlapping) occurrence
of `__`, accumulating the current component in reverse — the splitting that
repeated `s.find('__')` performs in the source helpers. -/
def splitDunder : List Char → List Char → List (List Char)
  | [], acc => [acc.reverse]
  | '_' :: '_' :: rest, acc => acc.reverse :: splitDunder rest []
  | c :: rest, acc => splitDunder rest (c :: acc)

/-- The `__`-separated components of a field definition. -/
def pySplitDunder (s : String) : List String :=
  (splitDunder s.data []).map (fun l => ⟨l⟩)

/-- Source helper `_extract_fieldpart`: split at the first `__`. -/
def _extract_fieldpart (s : String) : String × String :=
  match pySplitDunder s with
  | [] => (s, "")
  | [x] => (x, "")
  | x :: rest => (x, String.intercalate "__" rest)

/-- The recursion of `_split_fielddef` over the `__`-separated components.
Returns the matched field chain (as (xpath, node_class) pairs) and the
unmatched components. -/
def _split_fielddef_go : List String → Option Model →
    List (String × Option Model) × List String
  | [], _ => ([], [])
  | parts, none => ([], parts)
  | p :: rest, some m =>
    match (Model.fields m).find? (fun f => f.1 == p) with
    | none => ([], p :: rest)
    | some f =>
      let (fs, rem) := _split_fielddef_go rest f.2.2
      (f.2 :: fs, rem)

/-- Source helper `_split_fielddef`: list of matched field objects plus the
leftover part of the definition. -/
def _split_fielddef (fielddef : String) (cls : Option Model) :
    List (String × Option Model) × String :=
  let (fs, rem) := _split_fielddef_go (pySplitDunder fielddef) cls
  (fs, String.intercalate "__" rem)

/-- Source helper `_join_field_xpath`. -/
def _join_field_xpath (fields : List (String × Option Model)) : String :=
  String.intercalate "/" (fields.map (·.1))

/-! ### The lazy result set (`QuerySet`)

The external database handle (`eulexistdb.db.ExistDB`) is a collaborator:
it is modelled as pure query functions.  `releaseQueryResult` calls are
reported as a list of released handles so resource claims can inspect
them.  The sparse result cache is a store cell (`CacheStore`), because
slicing shares the cache *object* between parent and child. -/

structure DB where
  executeQuery : String → Nat
  getHits : Nat → Nat
  retrieve : Nat → Int → Bool → String

/-- Store of result-cache cells: each cell maps absolute index to the
materialized item (items are opaque to this model and kept as the raw
data strings the handle returns). -/
abbrev CacheStore := List (List (Int × String))

structure QuerySet where
  model : Option Model
  query : Xquery
  result_id : Option Nat
  _count : Option Nat
  result_cache : Nat
  _start : Int
  _stop : Option Int
  _highlight_matches : Bool

namespace QuerySet

/-- Source `QuerySet.__init__` (for a given model and query): fresh cache
cell, no handle, empty window. -/
def initQS (cs : CacheStore) (model : Option Model) (query : Xquery) :
    CacheStore × QuerySet :=
  (cs ++ [[]],
   { model := model, query := query, result_id := none, _count := none,
     result_cache := cs.length, _start := 0, _stop := none,
     _highlight_matches := false })

/-- Source `QuerySet._getCopy`: a fresh `QuerySet` over `self.query.getCopy()`
(`partial_fields`/`additional_fields`, which only feed the return-type
synthesizer, are not modelled), with `_highlight_matches` carried over and
an empty result cache.  Note `_start`/`_stop` are *not* carried over. -/
def _getCopy (cs : CacheStore) (qs : QuerySet) : CacheStore × QuerySet :=
  let (cs, copy) := initQS cs qs.model qs.query.getCopy
  (cs, { copy with _highlight_matches := qs._highlight_matches })

/-- Source `QuerySet._runQuery`: releases any previously held handle, then
executes the compiled query.  Returns the new handle, the updated set and
the released handles. -/
def _runQuery (db : DB) (qs : QuerySet) : Nat × QuerySet × List Nat :=
  let released := qs.result_id.toList
  let rid := db.executeQuery qs.query.getQuery
  (rid, { qs with result_id := some rid }, released)

/-- Source property `QuerySet.result_id`: run the query on first need. -/
def resultIdProp (db : DB) (qs : QuerySet) : Nat × QuerySet × List Nat :=
  match qs.result_id with
  | some r => (r, qs, [])
  | none => _runQuery db qs

/-- Source `QuerySet.count`: window length if a bounded slice is active,
otherwise the (cached) server hit count minus the window start. -/
def count (db : DB) (qs : QuerySet) : Int × QuerySet × List Nat :=
  match qs._stop with
  | some st => (st - qs._start, qs, [])
  | none =>
    match qs._count with
    | some c => ((c : Int) - qs._start, qs, [])
    | none =>
      let (rid, qs, released) := resultIdProp db qs
      let c := db.getHits rid
      ((c : Int) - qs._start, { qs with _count := some c }, released)

/-- Source `QuerySet.__getitem__` for a slice: clone, overwrite the window
from the slice bounds (`_start` is *assigned* the slice's start when one is
given; `_stop` is `min(k.stop, self.count())`, where Python 2's
`min(None, n)` is `None`), and share the parent's result-cache cell.
Returns (child, parent after the `count()` call, stores, releases). -/
def getSlice (db : DB) (cs : CacheStore) (lo hi : Option Int)
    (qs : QuerySet) : QuerySet × QuerySet × CacheStore × List Nat :=
  let (cs, child) := _getCopy cs qs
  let child :=
    match lo with
    | some l => { child with _start := l }
    | none => child
  let (c, qs, released) := count db qs
  let child :=
    { child with
        _stop := match hi with
                 | none => none
                 | some h => some (min h c),
        result_cache := qs.result_cache }
  (child, qs, cs, released)

/-- One iteration of the `for arg, value in kwargs.iteritems()` loop of
source `QuerySet.filter`, acting on the copied set.  The net effect of an
iteration is an updated `query` and `_highlight_matches`, so the result is
written as a single record update (the other attributes are untouched by
the loop body). -/
def filterStep (model : Option Model) (combine : String)
    (kwargs : List (String × PyVal)) (qs : QuerySet) (arg : String)
    (value : PyVal) : Except AddFilterError QuerySet :=
  let (fields, rest) := _split_fielddef arg model
  let (xpath, lookuptype) :=
    if rest ≠ "" ∧ ¬ Xquery.available_filters.contains rest then
      -- leftover that is not a recognized filter: maybe specialfield__filter
      let parts := _extract_fieldpart arg
      if Xquery.special_fields.contains parts.1 ∧
          Xquery.available_filters.contains parts.2 then
        (parts.1, parts.2)
      else
        (arg, "exact")
    else
      let j := _join_field_xpath fields
      (if j = "" then "." else j, if rest = "" then "exact" else rest)
  -- highlighting is only an xquery filter when passed as a non-boolean
  let queryRes : Except AddFilterError Xquery :=
    if lookuptype ≠ "highlight" ∨
        (lookuptype = "highlight" ∧ ¬ value.isBool) then
      qs.query.add_filter xpath lookuptype value (some combine)
    else .ok qs.query
  match queryRes with
  | .error e => .error e
  | .ok q =>
    let hm :=
      if lookuptype = "fulltext_terms" then
        -- boolean highlight setting overrides the default of `true`
        match kwargs.find? (fun kv => kv.1 == "highlight") with
        | some (_, .b hb) => hb
        | _ => true
      else qs._highlight_matches
    let hm :=
      if lookuptype = "highlight" then
        match value with
        | .b hb => hb
        | _ => true
      else hm
    .ok { qs with query := q, _highlight_matches := hm }

/-- Source `QuerySet.filter`: clone, then fold the loop body over the
keyword arguments (the list order stands in for Python 2's arbitrary
dictionary iteration order).  An exception from `add_filter` aborts the
call and discards the clone, leaving `self` untouched. -/
def filter (cs : CacheStore) (combine : String)
    (kwargs : List (String × PyVal)) (qs : QuerySet) :
    Except AddFilterError (CacheStore × QuerySet) :=
  let (cs, qscopy) := _getCopy cs qs
  match kwargs.foldlM
      (fun acc kv => filterStep qs.model combine kwargs acc kv.1 kv.2)
      qscopy with
  | .error e => .error e
  | .ok qscopy => .ok (cs, qscopy)

/-- Source `QuerySet.or_filter`. -/
def or_filter (cs : CacheStore) (kwargs : List (String × PyVal))
    (qs : QuerySet) : Except AddFilterError (CacheStore × QuerySet) :=
  filter cs "OR" kwargs qs

/-- Source `QuerySet.reset`: clears the query's filters via
`Xquery.clear_filters`, and — only if a handle is held — releases it and
drops the cached hit count. -/
def reset (qs : QuerySet) : QuerySet × List Nat :=
  let q := qs.query.clear_filters
  match qs.result_id with
  | some r =>
    ({ qs with query := q, result_id := none, _count := none }, [r])
  | none => ({ qs with query := q }, [])

/-- Source `QuerySet.__del__` together with `_release_query_result`: if a
handle is recorded, call `releaseQueryResult` on it.  The handle record is
*not* cleared, and no exception handler is installed. -/
def del_ (qs : QuerySet) : QuerySet × List Nat :=
  match qs.result_id with
  | some r => (qs, [r])
  | none => (qs, [])

end QuerySet

/-! ### Semantics of XQuery string literals (for claim C10)

`escChar`/`escAll` are the character-wise description of `escape_string`;
`scanLit` is an XQuery lexer for the inside of a double-quoted string
literal (a doubled `""` is an escaped quote, a single `"` terminates);
`decodeAmp` resolves the `&amp;` entity reference.  These give meaning to
"the value cannot terminate the literal": the lexer stops exactly at the
generated closing delimiter and the decoded content is the original
value. -/

def escChar (c : Char) : List Char :=
  if c = '"' then ['"', '"'] else if c = '&' then ampRep else [c]

def escAll (l : List Char) : List Char := (l.map escChar).flatten

/-- Entity escaping only (the content of the literal between the
delimiters, after the lexer has resolved doubled quotes). -/
def ampOnly (l : List Char) : List Char :=
  (l.map (fun c => if c = '&' then ampRep else [c])).flatten

/-- Lex the body of an XQuery string literal (input starts after the
opening quote): `""` yields an escaped quote, a lone `"` closes the
literal; returns the content and the characters after the closing
quote. `none` means the literal is unterminated. -/
def scanLit : List Char → Option (List Char × List Char)
  | [] => none
  | c :: rest =>
    if c = '"' then
      match rest with
      | [] => some ([], [])
      | c2 :: rest2 =>
        if c2 = '"' then (scanLit rest2).map (fun p => ('"' :: p.1, p.2))
        else some ([], c2 :: rest2)
    else (scanLit rest).map (fun p => (c :: p.1, p.2))

/-- Resolve `&amp;` entity references in lexed literal content. -/
def decodeAmp (l : List Char) : List Char := replaceL ampRep ['&'] l

/-! ### Concrete fixtures used by counterexamples and witnesses -/

/-- A database handle whose every query reports zero hits. -/
def dbTriv : DB :=
  { executeQuery := fun _ => 0, getHits := fun _ => 0,
    retrieve := fun _ _ _ => "" }

/-- A fresh model-less `QuerySet` over the default query, owning cache
cell 0. -/
def qsBase : QuerySet :=
  { model := none, query := Xquery.default, result_id := none,
    _count := none, result_cache := 0, _start := 0, _stop := none,
    _highlight_matches := false }

/-- A `QuerySet` whose query carries one OR filter. -/
def qsOr : QuerySet :=
  { qsBase with query := { Xquery.default with or_filters := [". = \"x\""] } }

/-- A `QuerySet` currently holding server result handle 7. -/
def qsHeld : QuerySet := { qsBase with result_id := some 7 }

/-- An already-windowed `QuerySet`: window `[2, 5)`. -/
def qsWindow : QuerySet := { qsBase with _start := 2, _stop := some 5 }

/-- Stores and object for the C1 counterexample: a well-formed object whose
sort key is the special field `fulltext_score` (so its compiled query is a
FLOWR query), with every container empty. -/
def s1A : StrStore := [[], [], [], [], [], []]

def s2A : PairStore := [[], [], []]

def refA : XqueryRef :=
  { xpath := "/node()", collection := none, namespaces := none,
    filtersId := 0, orFiltersId := 1, whereFiltersId := 2,
    whereFieldsId := 3, rawFieldsId := 4, returnXpathsId := 5,
    returnFieldsId := 0, additionalReturnFieldsId := 1,
    fulltextOptionsId := 2, order_by := some "fulltext_score",
    order_mode := some "ascending", start := 0, end_ := none,
    _distinct := false, _return_field_count := 1, ft_query := false,
    highlight := none }

/-! ## Theorems -/

/-! ### Shared helper lemmas -/

/-- Counting in a filtered duplicate-free list. -/
theorem count_filter_nodup {l : List String} (hnd : l.Nodup)
    (p : String → Bool) (a : String) :
    (l.filter p).count a = if l.contains a ∧ p a then 1 else 0 := by
  induction l with
  | nil => simp
  | cons b t ih =>
    have hbt : b ∉ t := (List.nodup_cons.mp hnd).1
    have ih := ih (List.nodup_cons.mp hnd).2
    by_cases hab : a = b
    · subst hab
      have hta : t.contains a = false := by simpa using hbt
      by_cases hpb : p a
      · simp [List.filter_cons, hpb, List.count_cons, ih, hta, hbt]
      · simp [List.filter_cons, hpb, ih, hta, hpb, hbt]
    · have hba : (b == a) = false := by
        simpa [beq_iff_eq] using fun hh => hab hh.symm
      by_cases hpb : p b
      · simp [List.filter_cons, hpb, List.count_cons, ih, hba, hab]
      · simp [List.filter_cons, hpb, ih, hab]

/-- `getD` is unaffected by a `set` at a different index. -/
theorem getD_set_ne {α : Type} (l : List α) {i j : Nat} (x d : α)
    (h : i ≠ j) : (l.set i x).getD j d = l.getD j d := by
  simp [List.getD_eq_getElem?_getD, List.getElem?_set_ne h]

/-! ### C6 — one `let` binding per referenced special field -/

/-- C6: in the `let` clause of a compiled FLOWR query, a special field that
is referenced anywhere in the state (as the sort key, a return or
additional-return field, or a filter recorded in `where_fields`) receives
exactly one `let $field := ...` binding however many places reference it,
and an unreferenced or non-special field receives none.  (`letBindingFields`
is the field list the `let` clause of `Xquery.getQuery` maps over, one
binding string per listed field.) -/
theorem special_field_let_binding_once (q : Xquery) (f : String) :
    (Xquery.letBindingFields q).count f =
      if Xquery.special_fields.contains f ∧ Xquery.references_special q f
      then 1 else 0 :=
  count_filter_nodup (by decide) (Xquery.references_special q) f

/-! ### C7 — `reset` clears only the AND filter list -/

/-- C7 (counterexample): `reset` on a set holding an OR filter leaves the
OR filter in place, and the subsequently compiled query still contains its
predicate — the claim that reset removes AND, OR and where filters alike is
false. -/
theorem reset_keeps_or_filters_cex :
    (QuerySet.reset qsOr).1.query.or_filters = [". = \"x\""] ∧
    (QuerySet.reset qsOr).1.query.getQuery = "/node()[. = \"x\"]" :=
  ⟨rfl, rfl⟩

/-- C7 (amended): `reset` clears the AND-filter list of the query state but
leaves the OR-filter and where-filter lists untouched; it releases the
remote handle if and only if one is held (and drops it), and it clears the
cached hit count exactly when a handle was held. -/
theorem reset_spec (qs : QuerySet) :
    (QuerySet.reset qs).1.query.filters = [] ∧
    (QuerySet.reset qs).1.query.or_filters = qs.query.or_filters ∧
    (QuerySet.reset qs).1.query.where_filters = qs.query.where_filters ∧
    (QuerySet.reset qs).1.result_id = none ∧
    (QuerySet.reset qs).2 = qs.result_id.toList ∧
    (QuerySet.reset qs).1._count =
      (if qs.result_id.isSome then none else qs._count) := by
  cases h : qs.result_id <;>
    simp [QuerySet.reset, Xquery.clear_filters, h]

/-! ### C9 — disposal is not idempotent in the claimed sense -/

/-- C9 (counterexample): on a result set holding handle 7, disposal issues
a release of handle 7, and running disposal a second time on the resulting
instance issues a *second* release of the same, already-released handle —
refuting the claim that a second disposal issues no second release. -/
theorem del_reissues_release_cex :
    (QuerySet.del_ qsHeld).2 = [7] ∧
    (QuerySet.del_ (QuerySet.del_ qsHeld).1).2 = [7] :=
  ⟨rfl, rfl⟩

/-- C9 (amended): `__del__` releases the recorded handle exactly when one
is recorded (and is safe — a no-op — when none is), but it leaves the
handle recorded, so invoking disposal again re-issues the release.  No
error handler appears in this code path: silence on release errors during
implicit disposal comes from the Python runtime's finalizer semantics, not
from the code itself. -/
theorem del_release_spec (qs : QuerySet) :
    QuerySet.del_ qs = (qs, qs.result_id.toList) ∧
    (QuerySet.del_ (QuerySet.del_ qs).1).2 = qs.result_id.toList := by
  cases h : qs.result_id <;> simp [QuerySet.del_, h]

/-! ### C2 — the accepted filter kinds -/

/-- C2 (counterexample): the kinds `exists`, `gt` and `NOT`, which the
claim says `add_filter` accepts without raising, are rejected with an
immediate `TypeError`. -/
theorem add_filter_rejects_exists_cex :
    Xquery.default.add_filter "." "exists" (.s "x") none =
      .error (.typeError "'exists' is not a supported filter type") ∧
    Xquery.default.add_filter "." "gt" (.s "x") none =
      .error (.typeError "'gt' is not a supported filter type") ∧
    Xquery.default.add_filter "." "NOT" (.s "x") none =
      .error (.typeError "'NOT' is not a supported filter type") :=
  ⟨rfl, rfl, rfl⟩

/-- C2 (amended): `add_filter` accepts exactly the six kinds `contains`,
`startswith`, `exact`, `fulltext_terms`, `highlight` and `in`.  Any kind
outside this set (in particular `exists`, `gt`/`gte`/`lt`/`lte` and `NOT`)
fails fast with a `TypeError` raised before any state mutation (the error
result carries no updated state, so the filter lists are unchanged); every
kind inside the set succeeds on a value of its expected type. -/
theorem add_filter_supported_kinds (q : Xquery) (xp t : String) (v : PyVal)
    (mode : Option String) (s : String) (l : List String) :
    Xquery.available_filters =
      ["contains", "startswith", "exact", "fulltext_terms", "highlight",
       "in"] ∧
    (¬ Xquery.available_filters.contains t = true →
      q.add_filter xp t v mode =
        .error (.typeError ("'" ++ t ++ "' is not a supported filter type"))) ∧
    (t ∈ (["contains", "startswith", "exact", "fulltext_terms"] :
        List String) →
      ∃ q', q.add_filter xp t (.s s) mode = .ok q') ∧
    (∃ q', q.add_filter xp "in" (.vlist l) mode = .ok q') ∧
    (∃ q', q.add_filter xp "highlight" (.s s) mode = .ok q') := by
  refine ⟨rfl, ?_, ?_, ?_, ?_⟩
  · intro ht
    unfold Xquery.add_filter
    rw [if_pos ht]
  · intro ht
    fin_cases ht <;>
      (unfold Xquery.add_filter
       by_cases hs : xp ∈ Xquery.special_fields <;>
         by_cases hm : mode = some "OR" <;>
           simp +decide [hs, hm])
  · unfold Xquery.add_filter
    by_cases hs : xp ∈ Xquery.special_fields <;>
      by_cases hm : mode = some "OR" <;>
        simp +decide [hs, hm]
  · unfold Xquery.add_filter
    by_cases hs : xp ∈ Xquery.special_fields <;> simp +decide [hs]

/-- C2 (witness for the amended theorem). -/
theorem add_filter_supported_kinds_witness :
    Xquery.default.add_filter "." "lte" (.s "5") none =
      .error (.typeError "'lte' is not a supported filter type") ∧
    (∃ q', Xquery.default.add_filter "." "contains" (.s "dog") none =
      .ok q') := by
  refine ⟨?_, ?_⟩
  · exact (add_filter_supported_kinds Xquery.default "." "lte" (.s "5")
      none "dog" []).2.1 (by decide)
  · exact (add_filter_supported_kinds Xquery.default "." "contains"
      (.s "dog") none "dog" []).2.2.1 (by decide)

/-! ### C3 — pagination window composition -/

/-- C3: on a fresh state, `set_limits(low=2, high=10)` followed by
`set_limits(low=1, high=5)` compiles to exactly one `subsequence` wrapper
with 1-based start 4 and count 4; and in general a `set_limits` call on a
state satisfying `start ≤ end` (when `end` is set) yields a state that
still satisfies it — limits compose additively and clamp to the existing
window. -/
theorem set_limits_compose (q : Xquery) (low high : Option Nat)
    (hq : ∀ e, q.end_ = some e → q.start ≤ e) :
    ((Xquery.default.set_limits (some 2) (some 10)).set_limits
        (some 1) (some 5)).getQuery = "subsequence(/node(), 4, 4)" ∧
    (∀ e, (q.set_limits low high).end_ = some e →
      (q.set_limits low high).start ≤ e) := by
  constructor
  · rfl
  · intro e he
    rcases high with _ | h <;> rcases low with _ | l <;>
      rcases hend : q.end_ with _ | e0 <;>
      simp [Xquery.set_limits, hend] at he ⊢ <;>
      first
      | omega
      | (have hqe := hq e0 hend; omega)

/-! ### C5 — slicing an already-windowed result set -/

/-- C5 (counterexample): slicing `[1:3]` on a result set whose current
window is `[2, 5)` gives a child whose window start is the slice's start
`1` taken absolutely, not `2 + 1 = 3` as the claim's "updated relative to
the current window" requires. -/
theorem getitem_slice_absolute_start_cex :
    (QuerySet.getSlice dbTriv [[]] (some 1) (some 3) qsWindow).1._start = 1 ∧
    qsWindow._start + 1 = 3 ∧
    ¬ ((QuerySet.getSlice dbTriv [[]] (some 1) (some 3) qsWindow).1._start =
        qsWindow._start + 1) :=
  ⟨rfl, rfl, by decide⟩

/-- C5 (amended): slicing clones the state and then *assigns* the slice
bounds: the child's window start is the slice's start when one is given
(absolute, not relative to the parent's window; with no start given it is
reset to 0, not retained from the parent), its stop is the slice's stop
clamped by `min` to the parent's current `count()` (an unbounded stop stays
unbounded, Python 2's `min(None, n)` being `None`); the child shares the
parent's materialized-item cache cell (the same store index, not a copy)
and holds no remote result handle and no cached hit count of its own. -/
theorem getitem_slice_spec (db : DB) (cs : CacheStore) (lo hi : Option Int)
    (qs : QuerySet) :
    (QuerySet.getSlice db cs lo hi qs).1._start =
      (match lo with | some l => l | none => 0) ∧
    (QuerySet.getSlice db cs lo hi qs).1._stop =
      (match hi with
       | none => none
       | some h => some (min h (QuerySet.count db qs).1)) ∧
    (QuerySet.getSlice db cs lo hi qs).1.result_cache = qs.result_cache ∧
    (QuerySet.getSlice db cs lo hi qs).1.result_id = none ∧
    (QuerySet.getSlice db cs lo hi qs).1._count = none := by
  rcases lo with _ | l <;> rcases hi with _ | h <;>
    rcases hstop : qs._stop with _ | st <;>
    rcases hcnt : qs._count with _ | c0 <;>
    rcases hrid : qs.result_id with _ | r0 <;>
      simp [QuerySet.getSlice, QuerySet._getCopy, QuerySet.initQS,
            QuerySet.count, QuerySet.resultIdProp, QuerySet._runQuery,
            hstop, hcnt, hrid]

/-! ### C8 — highlight default and override across filter calls -/

/-- C8 (counterexample): `filter(highlight=False)` followed in a *separate*
call by `filter(fulltext_terms="dog")` leaves highlighting enabled: the
later fulltext filter re-defaults the flag to `True` because the explicit
boolean only overrides when it appears in the same call's kwargs (or
later).  The claim that the explicit boolean wins in either order of filter
application is false for separate calls. -/
theorem highlight_override_order_cex :
    ((QuerySet.filter [[]] "AND" [("highlight", PyVal.b false)]
          qsBase).bind
        (fun r => QuerySet.filter r.1 "AND"
          [("fulltext_terms", PyVal.s "dog")] r.2)).map
      (fun r => r.2._highlight_matches) = .ok true :=
  rfl

/-- C8 (amended): within a single `filter` call, the resulting
highlight-matches flag is insensitive to the order of the keyword
arguments — a `fulltext_terms` filter defaults it to enabled and an
explicit boolean `highlight` in the same call overrides that default in
either position; across separate calls the override only persists when the
boolean highlight call comes *after* (or together with) the
`fulltext_terms` call: a later `fulltext_terms` call without a boolean
highlight in its own kwargs resets the flag to enabled. -/
theorem highlight_override_spec (cs : CacheStore) (qs : QuerySet)
    (t : String) (b : Bool) (hm : qs.model = none) :
    ((QuerySet.filter cs "AND"
        [("fulltext_terms", .s t), ("highlight", .b b)] qs).map
      (fun r => r.2._highlight_matches) = .ok b) ∧
    ((QuerySet.filter cs "AND"
        [("highlight", .b b), ("fulltext_terms", .s t)] qs).map
      (fun r => r.2._highlight_matches) = .ok b) ∧
    (((QuerySet.filter cs "AND" [("fulltext_terms", .s t)] qs).bind
        (fun r => QuerySet.filter r.1 "AND" [("highlight", .b b)] r.2)).map
      (fun r => r.2._highlight_matches) = .ok b) ∧
    (((QuerySet.filter cs "AND" [("highlight", .b b)] qs).bind
        (fun r => QuerySet.filter r.1 "AND"
          [("fulltext_terms", .s t)] r.2)).map
      (fun r => r.2._highlight_matches) = .ok true) := by
  rcases qs with ⟨m, qq, rid, cnt, rc, st, sp, hmf⟩
  subst hm
  exact ⟨rfl, rfl, rfl, rfl⟩

/-- C8 (witness for the amended theorem). -/
theorem highlight_override_spec_witness :
    ((QuerySet.filter [] "AND"
        [("fulltext_terms", .s "dog"), ("highlight", .b false)]
        qsBase).map (fun r => r.2._highlight_matches) = .ok false) :=
  (highlight_override_spec [] qsBase "dog" false rfl).1

/-! ### C4 — `get()` cardinality trichotomy -/

/-- Appending to a string-list cell that none of an object's list
containers occupy leaves the object's dereferenced state unchanged. -/
theorem derefXq_appendStr_ne (s1 : StrStore) (s2 : PairStore)
    (r : XqueryRef) (i : Nat) (v : String)
    (h : ∀ j ∈ [r.filtersId, r.orFiltersId, r.whereFiltersId,
        r.whereFieldsId, r.rawFieldsId, r.returnXpathsId], i ≠ j) :
    derefXq (appendStr s1 i v) s2 r = derefXq s1 s2 r := by
  have h1 := h r.filtersId (by simp)
  have h2 := h r.orFiltersId (by simp)
  have h3 := h r.whereFiltersId (by simp)
  have h4 := h r.whereFieldsId (by simp)
  have h5 := h r.rawFieldsId (by simp)
  have h6 := h r.returnXpathsId (by simp)
  simp only [derefXq, appendStr]
  rw [getD_set_ne _ _ _ h1, getD_set_ne _ _ _ h2, getD_set_ne _ _ _ h3,
    getD_set_ne _ _ _ h4, getD_set_ne _ _ _ h5, getD_set_ne _ _ _ h6]

/-- Appending to a dictionary cell that none of an object's map containers
occupy leaves the object's dereferenced state unchanged. -/
theorem derefXq_appendPair_ne (s1 : StrStore) (s2 : PairStore)
    (r : XqueryRef) (i : Nat) (kv : String × String)
    (h : ∀ j ∈ [r.returnFieldsId, r.additionalReturnFieldsId,
        r.fulltextOptionsId], i ≠ j) :
    derefXq s1 (appendPair s2 i kv) r = derefXq s1 s2 r := by
  have h1 := h r.returnFieldsId (by simp)
  have h2 := h r.additionalReturnFieldsId (by simp)
  have h3 := h r.fulltextOptionsId (by simp)
  simp only [derefXq, appendPair]
  rw [getD_set_ne _ _ _ h1, getD_set_ne _ _ _ h2, getD_set_ne _ _ _ h3]

/-- C1 (counterexample): `getCopy` aliases the `where_fields` list: the
clone holds the same cell, and appending `"hash"` through the clone's
`where_fields` changes the *original's* compiled query (an extra
`let $hash := ...` binding appears in its FLOWR query).  This refutes the
claim that no mutable container is aliased between a state and its
clone. -/
theorem getCopy_aliases_where_fields_cex :
    (getCopyRef s1A s2A refA).2.2.whereFieldsId = refA.whereFieldsId ∧
    getQueryRef
        (appendStr (getCopyRef s1A s2A refA).1
          (getCopyRef s1A s2A refA).2.2.whereFieldsId "hash")
        (getCopyRef s1A s2A refA).2.1 refA ≠
      getQueryRef (getCopyRef s1A s2A refA).1
        (getCopyRef s1A s2A refA).2.1 refA :=
  ⟨rfl, by decide⟩

/-- C1 (amended): `getCopy` gives the clone fresh cells, holding equal
contents, for the AND/OR/where *filter* lists and for the three
dictionaries (return fields, additional return fields, fulltext options):
mutating any of those containers on the clone leaves the original's state
and compiled query unchanged, and vice versa.  But the `where_fields`,
`raw_fields` and `return_xpaths` lists are aliased — clone and original
hold the same cell — so mutations to those are visible from both sides
(the counterexample shows one changing the original's compiled query). -/
theorem getCopy_container_freshness (s1 : StrStore) (s2 : PairStore)
    (r : XqueryRef) (s1' : StrStore) (s2' : PairStore) (b : XqueryRef)
    (hwf : r.wfIds s1 s2) (hcopy : getCopyRef s1 s2 r = (s1', s2', b)) :
    (b.whereFieldsId = r.whereFieldsId ∧ b.rawFieldsId = r.rawFieldsId ∧
      b.returnXpathsId = r.returnXpathsId) ∧
    (∀ i ∈ [b.filtersId, b.whereFiltersId, b.orFiltersId], ∀ v,
      derefXq (appendStr s1' i v) s2' r = derefXq s1' s2' r ∧
      getQueryRef (appendStr s1' i v) s2' r = getQueryRef s1' s2' r) ∧
    (∀ i ∈ [b.returnFieldsId, b.additionalReturnFieldsId,
        b.fulltextOptionsId], ∀ kv,
      derefXq s1' (appendPair s2' i kv) r = derefXq s1' s2' r ∧
      getQueryRef s1' (appendPair s2' i kv) r = getQueryRef s1' s2' r) ∧
    (∀ i ∈ [r.filtersId, r.whereFiltersId, r.orFiltersId], ∀ v,
      derefXq (appendStr s1' i v) s2' b = derefXq s1' s2' b ∧
      getQueryRef (appendStr s1' i v) s2' b = getQueryRef s1' s2' b) ∧
    (∀ i ∈ [r.returnFieldsId, r.additionalReturnFieldsId,
        r.fulltextOptionsId], ∀ kv,
      derefXq s1' (appendPair s2' i kv) b = derefXq s1' s2' b ∧
      getQueryRef s1' (appendPair s2' i kv) b = getQueryRef s1' s2' b) := by
  obtain ⟨w1, w2, w3, w4, w5, w6, w7, w8, w9, w10, w11, w12, w13, w14, w15,
    w16, w17, w18⟩ := hwf
  simp only [getCopyRef, Prod.mk.injEq] at hcopy
  obtain ⟨hs1, hs2, hb⟩ := hcopy
  subst hs1
  subst hs2
  subst hb
  refine ⟨⟨rfl, rfl, rfl⟩, ?_, ?_, ?_, ?_⟩
  · intro i hi v
    simp only [List.mem_cons, List.mem_singleton, List.not_mem_nil,
      or_false] at hi
    have hne : ∀ j ∈ [r.filtersId, r.orFiltersId, r.whereFiltersId,
        r.whereFieldsId, r.rawFieldsId, r.returnXpathsId], i ≠ j := by
      intro j hj
      simp only [List.mem_cons, List.mem_singleton, List.not_mem_nil,
        or_false] at hj
      rcases hi with rfl | rfl | rfl <;> omega
    exact ⟨derefXq_appendStr_ne _ _ _ _ _ hne,
      congrArg Xquery.getQuery (derefXq_appendStr_ne _ _ _ _ _ hne)⟩
  · intro i hi kv
    simp only [List.mem_cons, List.mem_singleton, List.not_mem_nil,
      or_false] at hi
    have hne : ∀ j ∈ [r.returnFieldsId, r.additionalReturnFieldsId,
        r.fulltextOptionsId], i ≠ j := by
      intro j hj
      simp only [List.mem_cons, List.mem_singleton, List.not_mem_nil,
        or_false] at hj
      rcases hi with rfl | rfl | rfl <;> omega
    exact ⟨derefXq_appendPair_ne _ _ _ _ _ hne,
      congrArg Xquery.getQuery (derefXq_appendPair_ne _ _ _ _ _ hne)⟩
  · intro i hi v
    simp only [List.mem_cons, List.mem_singleton, List.not_mem_nil,
      or_false] at hi
    have hne : ∀ j ∈ [s1.length, s1.length + 2, s1.length + 1,
        r.whereFieldsId, r.rawFieldsId, r.returnXpathsId], i ≠ j := by
      intro j hj
      simp only [List.mem_cons, List.mem_singleton, List.not_mem_nil,
        or_false] at hj
      rcases hi with rfl | rfl | rfl <;> omega
    exact ⟨derefXq_appendStr_ne _ _ _ _ _ hne,
      congrArg Xquery.getQuery (derefXq_appendStr_ne _ _ _ _ _ hne)⟩
  · intro i hi kv
    simp only [List.mem_cons, List.mem_singleton, List.not_mem_nil,
      or_false] at hi
    have hne : ∀ j ∈ [s2.length, s2.length + 1, s2.length + 2], i ≠ j := by
      intro j hj
      simp only [List.mem_cons, List.mem_singleton, List.not_mem_nil,
        or_false] at hj
      rcases hi with rfl | rfl | rfl <;> omega
    exact ⟨derefXq_appendPair_ne _ _ _ _ _ hne,
      congrArg Xquery.getQuery (derefXq_appendPair_ne _ _ _ _ _ hne)⟩

/-- C1 (witness for the amended theorem): instantiated at the concrete
well-formed object `refA`; mutating the clone's fresh AND-filter cell
leaves the original's compiled query unchanged. -/
theorem getCopy_container_freshness_witness :
    getQueryRef
        (appendStr (getCopyRef s1A s2A refA).1
          (getCopyRef s1A s2A refA).2.2.filtersId "extra")
        (getCopyRef s1A s2A refA).2.1 refA =
      getQueryRef (getCopyRef s1A s2A refA).1
        (getCopyRef s1A s2A refA).2.1 refA :=
  ((getCopy_container_freshness s1A s2A refA _ _ _
      (by unfold XqueryRef.wfIds; decide) rfl).2.1
      (getCopyRef s1A s2A refA).2.2.filtersId (by decide) "extra").2

/-! ### C10 — string values enter the query only as safe literals -/

/-- A single-character-pattern `str.replace` is a character-wise map. -/
theorem replaceL_single (c : Char) (rep : List Char) (l : List Char) :
    replaceL [c] rep l =
      (l.map (fun x => if x = c then rep else [x])).flatten := by
  induction l with
  | nil => simp [replaceL]
  | cons x t ih =>
    by_cases hx : x = c
    · subst hx
      rw [replaceL]
      simp [List.isPrefixOf, ih]
    · rw [replaceL]
      simp [List.isPrefixOf, hx, ih, Ne.symm hx]

/-- Composing the two character-wise replaces of `escape_string` gives the
combined escaping map `escChar`. -/
theorem flatten_amp_quote (l : List Char) :
    (((l.map (fun x => if x = '"' then ['"', '"'] else [x])).flatten.map
        (fun x => if x = '&' then ampRep else [x])).flatten) = escAll l := by
  induction l with
  | nil => simp [escAll]
  | cons x t ih =>
    simp only [List.map_cons, List.flatten_cons, List.map_append,
      List.flatten_append, ih, escAll]
    by_cases hq : x = '"'
    · subst hq
      simp [escChar]
    · by_cases ha : x = '&'
      · subst ha
        simp [escChar, ampRep]
      · simp [escChar, hq, ha]

/-- `escape_string` doubles every quote and entity-escapes every
ampersand, character by character. -/
theorem escape_eq_escAll (s : String) :
    (escape_string s).data = escAll s.data := by
  show replaceL ['&'] ampRep (replaceL ['"'] ['"', '"'] s.data) = escAll s.data
  rw [replaceL_single '"' ['"', '"'] s.data, replaceL_single '&' ampRep _]
  exact flatten_amp_quote s.data

/-- One lexer step over an ordinary character. -/
theorem scanLit_cons_ne (x : Char) (L M R : List Char) (hx : ¬ x = '"')
    (h : scanLit L = some (M, R)) :
    scanLit (x :: L) = some (x :: M, R) := by
  rw [scanLit.eq_def]
  simp [hx, h]

/-- One lexer step over a doubled (escaped) quote. -/
theorem scanLit_cons_quote (L M R : List Char)
    (h : scanLit L = some (M, R)) :
    scanLit ('"' :: '"' :: L) = some ('"' :: M, R) := by
  rw [scanLit.eq_def]
  simp [h]

/-- The XQuery literal lexer consumes exactly the escaped value and stops
at the generated closing delimiter, whatever the value contains. -/
theorem scanLit_escAll (v : List Char) (rest : List Char)
    (hrest : ∀ c, rest.head? = some c → c ≠ '"') :
    scanLit (escAll v ++ '"' :: rest) = some (ampOnly v, rest) := by
  induction v with
  | nil =>
    cases rest with
    | nil => simp [escAll, ampOnly, scanLit]
    | cons c t =>
      have hc : c ≠ '"' := hrest c rfl
      rw [scanLit.eq_def]
      simp [escAll, ampOnly, hc]
  | cons x t ih =>
    simp only [escAll, ampOnly, List.map_cons, List.flatten_cons] at ih ⊢
    by_cases hq : x = '"'
    · subst hq
      simpa [escChar, List.append_assoc] using
        scanLit_cons_quote _ _ _ ih
    · by_cases ha : x = '&'
      · subst ha
        have h1 := scanLit_cons_ne ';' _ _ _ (by decide) ih
        have h2 := scanLit_cons_ne 'p' _ _ _ (by decide) h1
        have h3 := scanLit_cons_ne 'm' _ _ _ (by decide) h2
        have h4 := scanLit_cons_ne 'a' _ _ _ (by decide) h3
        have h5 := scanLit_cons_ne '&' _ _ _ (by decide) h4
        simpa [escChar, ampRep, List.append_assoc] using h5
      · simpa [escChar, hq, ha, List.append_assoc] using
          scanLit_cons_ne x _ _ _ hq ih

/-- One decoding step over an ordinary character. -/
theorem replaceL_amp_cons_ne (x : Char) (L : List Char)
    (hx : ('&' == x) = false) :
    replaceL ampRep ['&'] (x :: L) = x :: replaceL ampRep ['&'] L := by
  rw [replaceL.eq_def]
  simp [List.isPrefixOf, ampRep, hx]

/-- One decoding step over a generated `&amp;`. -/
theorem replaceL_amp_head (L : List Char) :
    replaceL ampRep ['&'] (ampRep ++ L) = '&' :: replaceL ampRep ['&'] L := by
  show replaceL ampRep ['&'] ('&' :: 'a' :: 'm' :: 'p' :: ';' :: L) = _
  rw [replaceL.eq_def]
  simp [List.isPrefixOf, ampRep]

/-- Resolving `&amp;` in the lexed content recovers the original value. -/
theorem decodeAmp_ampOnly (l : List Char) : decodeAmp (ampOnly l) = l := by
  induction l with
  | nil => simp [ampOnly, decodeAmp, replaceL]
  | cons x t ih =>
    simp only [decodeAmp, ampOnly, List.map_cons, List.flatten_cons] at ih ⊢
    by_cases hx : x = '&'
    · subst hx
      rw [if_pos rfl, replaceL_amp_head, ih]
    · rw [if_neg hx]
      have hbx : ('&' == x) = false := by
        simpa [beq_iff_eq] using Ne.symm hx
      rw [List.singleton_append, replaceL_amp_cons_ne x _ hbx, ih]

/-- C10: a string filter value reaches the compiled query only through
`_quote_as_string_literal`: the generated literal is the value with every
quote doubled and every ampersand written `&amp;`, wrapped in double
quotes (first conjunct; `add_filter` splices exactly this literal into the
filter expression, last conjunct, shown for `contains`).  Structurally no
value can escape the literal: the XQuery literal lexer consumes exactly the
escaped value and terminates at the generated closing quote (second
conjunct), and decoding the lexed content restores the original value
(third conjunct). -/
theorem string_literal_escaping_safe (v : String) (rest : List Char)
    (hrest : ∀ c, rest.head? = some c → c ≠ '"') :
    (_quote_as_string_literal v).data = '"' :: (escAll v.data ++ ['"']) ∧
    scanLit (escAll v.data ++ '"' :: rest) = some (ampOnly v.data, rest) ∧
    decodeAmp (ampOnly v.data) = v.data ∧
    Xquery.default.add_filter "." "contains" (.s v) none =
      .ok { Xquery.default with
            filters := ["contains(., " ++ _quote_as_string_literal v ++ ")"] } := by
  refine ⟨?_, scanLit_escAll v.data rest hrest, decodeAmp_ampOnly v.data, rfl⟩
  show ("\"" ++ escape_string v ++ "\"").data = _
  rw [String.data_append, String.data_append, escape_eq_escAll]
  rfl

/-- C10 (witness): instantiated at a value containing a quote and an
ampersand, followed by the closing parenthesis the generated filter
expressions use. -/
theorem string_literal_escaping_safe_witness :
    scanLit (escAll ("a\"b&c".data) ++ '"' :: (")".data)) =
      some (ampOnly ("a\"b&c".data), ")".data) :=
  (string_literal_escaping_safe "a\"b&c" (")".data)
    (by intro c hc; simp at hc; subst hc; decide)).2.1

/-- C3 (witness). -/
theorem set_limits_compose_witness :
    ((Xquery.default.set_limits (some 2) (some 10)).set_limits
        (some 1) (some 5)).getQuery = "subsequence(/node(), 4, 4)" :=
  (set_limits_compose Xquery.default none none (by simp [Xquery.default,
    Xquery.init, Xquery.set_collection])).1

end Eulexistdb


